import Mathlib

/-!
Shallow embedding of the neghi-go/iam credential strategies.

The Go sources embedded here are:
- `authentication/auth.go` (the `Auth` registry and `Build`, plus the
  password-strategy handlers: login, register, password-reset, email-verify);
- `providers/passwordless/passwordless.go` (the magic-link `authorize`
  handler with its authenticate / resend / default branches).

Times are modelled as unix seconds (`Int`), matching the `.Unix()`
comparisons the source performs.  External collaborators (store, notifier,
hasher, JWT signer, token codec, randomness) are modelled as per-request
oracles carried in an environment record; the handler consumes each oracle
at the exact program point where the Go code calls the collaborator, and
the outcome records which calls were made and with which arguments.
-/

namespace IAM

/-- Unix seconds of the zero `time.Time` value (`time.Time{}.Unix()`). -/
def zeroTimeUnix : Int := -62135596800

/-- The `models.User` identity record, with the fields the strategies read
and write (spec section 3).  Defaults are the Go zero values. -/
structure User where
  id : String := ""
  email : String := ""
  password : String := ""
  passwordSalt : String := ""
  passwordUpdatedOn : Int := zeroTimeUnix
  emailVerified : Bool := false
  emailVerifiedAt : Int := zeroTimeUnix
  emailVerifyToken : String := ""
  emailVerifyTokenExpiresAt : Int := zeroTimeUnix
  passwordResetToken : String := ""
  passwordResetTokenExpiresAt : Int := zeroTimeUnix
  lastLogin : Int := 0
deriving Repr, DecidableEq

/-- The `utilities.ResponseStatus` values used by the handlers. -/
inductive RStatus where
  | success
  | fail
  | error
deriving Repr, DecidableEq

/-- A caller-visible JSON response: status, HTTP status code, message.
Handlers that never call `SetMessage` leave the message empty. -/
structure Response where
  status : RStatus
  code : Nat
  message : String := ""
deriving Repr, DecidableEq

/-- A Go `any` value as it can appear in the decrypted claims map of a
magic-link token.  `vint64` is a value whose dynamic type is `int64`;
`vint` and `vfloat64` are other numeric dynamic types a deserializer can
produce; `vnil` is the untyped nil returned by a map lookup on a missing
key. -/
inductive GoValue where
  | vint64 (i : Int)
  | vint (i : Int)
  | vfloat64 (i : Int)
  | vstr (s : String)
  | vnil
deriving Repr, DecidableEq

/-- Go map lookup `m[k]` on a `map[string]any`: the zero value (untyped
nil) when the key is absent. -/
def lookupGo (m : List (String × GoValue)) (k : String) : GoValue :=
  match m.find? (fun p => p.1 = k) with
  | some p => p.2
  | none => GoValue.vnil

/-- Go comparison `v != s` negated, for `v : any` against a `string`:
equal exactly when the dynamic type is `string` and the values agree. -/
def goEqString (v : GoValue) (s : String) : Bool :=
  match v with
  | GoValue.vstr t => t = s
  | _ => false

/-- Go type assertion `v.(int64)` in its two-result form: the asserted
value on success, the zero value `0` when the dynamic type is anything
else. -/
def assertInt64 (v : GoValue) : Int :=
  match v with
  | GoValue.vint64 i => i
  | _ => 0

/-- Go dynamic-type test used to phrase hypotheses about `assertInt64`. -/
def isInt64 (v : GoValue) : Bool :=
  match v with
  | GoValue.vint64 _ => true
  | _ => false

/-- Go expression `errors.Is(err, errors.New("doc not found"))` from the
passwordless default branch: `errors.New` allocates a fresh error value,
and `errors.Is` matches only on identity (or an `Is`/`Unwrap` chain, which
a fresh `errorString` never provides), so the test is false for every
incoming error. -/
def errorsIsFreshNotFound (_err : String) : Bool := false

/-- Modelled from the spec: `utilities.Generate n` (the token and salt
generator, not part of the sources here) returns an opaque random token of
exactly `n` characters; the randomness is abstracted as a position-indexed
character source supplied by the environment. -/
def generate (entropy : Nat → Char) (n : Nat) : String :=
  String.mk ((List.range n).map entropy)

theorem generate_length (entropy : Nat → Char) (n : Nat) :
    (generate entropy n).length = n := by
  simp [generate]

/-- Error message produced by `argonHasher.compare` on a mismatch. -/
def argonCompareMsg : String := "passwords don\x27t Match"

/-- Everything a single password-strategy request consumes from its
collaborators, in the order the Go code consults them: JSON decoding of
the body, the store lookup, randomness (indexed by call site within the
request), the hasher, the store save/update, the notifier and the JWT
signer. -/
structure PasswordEnv where
  now : Int := 0
  newId : String := ""
  entropy : Nat → Nat → Char := fun _ _ => 'a'
  hashFn : String → String → String := fun p s => p ++ s
  decodeErr : Option String := none
  findResult : Except String User := Except.error "doc not found"
  saveErr : Option String := none
  updateErr : Option String := none
  notifyErr : Option String := none
  compareErr : Option String := none
  signResult : Except String String := Except.ok ""

/-- Observable outcome of one handler invocation: the JSON response, the
identity passed to a successful `UpdateOne` (`persisted`) or `Save`
(`saved`), the `(email, token)` argument of the `notify` call when one was
made, whether `hash.compare` ran, and the claims map handed to
`Encrypt` when one was built. -/
structure Outcome where
  response : Response
  persisted : Option User := none
  saved : Option User := none
  notified : Option (String × String) := none
  compared : Bool := false
  encrypted : Option (List (String × GoValue)) := none
deriving Repr, DecidableEq

/-- Request body of `POST /login`. -/
structure LoginRequest where
  email : String := ""
  password : String := ""
deriving Repr, DecidableEq

/-- Request body of `POST /register`. -/
structure RegisterRequest where
  email : String := ""
  password : String := ""
deriving Repr, DecidableEq

/-- Request body of `POST /password-reset`. -/
structure ResetRequest where
  email : String := ""
  token : String := ""
  newPassword : String := ""
deriving Repr, DecidableEq

/-- Request body of `POST /email-verify`. -/
structure VerifyRequest where
  email : String := ""
  token : String := ""
deriving Repr, DecidableEq

/-- The `POST /login` handler of the password strategy
(`authentication/auth.go`).  `action` is the `action` query parameter
(empty when absent); the body fields feed the store filter and the hash
comparison, both abstracted into the environment oracles. -/
def loginHandler (env : PasswordEnv) (action : String) (_body : LoginRequest) : Outcome :=
  match env.decodeErr with
  | some e => { response := ⟨RStatus.error, 500, e⟩ }
  | none =>
    match env.findResult with
    | Except.error e => { response := ⟨RStatus.fail, 400, e⟩ }
    | Except.ok user0 =>
      let act := if user0.emailVerified = false then "verify" else action
      if act = "verify" then
        let token := generate (env.entropy 0) 4
        let user := { user0 with
          emailVerifyToken := token,
          emailVerifyTokenExpiresAt := env.now + 7200 }
        match env.updateErr with
        | some e => { response := ⟨RStatus.fail, 400, e⟩ }
        | none =>
          match env.notifyErr with
          | some e =>
            { response := ⟨RStatus.fail, 400, e⟩, persisted := some user,
              notified := some (user.email, token) }
          | none =>
            { response := ⟨RStatus.success, 200,
                "your email is yet to be verified, please check your email for verification code"⟩,
              persisted := some user, notified := some (user.email, token) }
      else
        match env.compareErr with
        | some e => { response := ⟨RStatus.fail, 400, e⟩, compared := true }
        | none =>
          let user := { user0 with lastLogin := env.now }
          match env.updateErr with
          | some e => { response := ⟨RStatus.fail, 400, e⟩, compared := true }
          | none =>
            match env.signResult with
            | Except.error e =>
              { response := ⟨RStatus.fail, 400, e⟩, persisted := some user,
                compared := true }
            | Except.ok _tok =>
              { response := ⟨RStatus.success, 200, "successfull login attempt"⟩,
                persisted := some user, compared := true }

/-- The `POST /register` handler of the password strategy. -/
def registerHandler (env : PasswordEnv) (body : RegisterRequest) : Outcome :=
  match env.decodeErr with
  | some e => { response := ⟨RStatus.error, 500, e ++ "unable to get user details"⟩ }
  | none =>
    let salt := generate (env.entropy 0) 16
    let user : User :=
      { id := env.newId, email := body.email, passwordSalt := salt,
        emailVerifyToken := generate (env.entropy 1) 4,
        emailVerifyTokenExpiresAt := env.now + 7200,
        password := env.hashFn body.password salt }
    match env.saveErr with
    | some e => { response := ⟨RStatus.error, 500, e⟩ }
    | none =>
      match env.notifyErr with
      | some e =>
        { response := ⟨RStatus.fail, 400, e⟩, saved := some user,
          notified := some (user.email, user.emailVerifyToken) }
      | none =>
        { response := ⟨RStatus.success, 200, "your verification code has been resent"⟩,
          saved := some user,
          notified := some (user.email, user.emailVerifyToken) }

/-- The `POST /password-reset` handler of the password strategy.  The
`action=reset` branch issues a token; the default branch consumes one,
with the self-healing regeneration path on expiry. -/
def passwordResetHandler (env : PasswordEnv) (action : String) (body : ResetRequest) : Outcome :=
  match env.decodeErr with
  | some e => { response := ⟨RStatus.error, 500, e⟩ }
  | none =>
    match env.findResult with
    | Except.error e => { response := ⟨RStatus.fail, 400, e⟩ }
    | Except.ok user0 =>
      if action = "reset" then
        let token := generate (env.entropy 0) 6
        let user := { user0 with
          passwordResetToken := token,
          passwordResetTokenExpiresAt := env.now + 3600 }
        match env.updateErr with
        | some e => { response := ⟨RStatus.fail, 400, e⟩ }
        | none =>
          match env.notifyErr with
          | some e =>
            { response := ⟨RStatus.fail, 400, e⟩, persisted := some user,
              notified := some (user.email, token) }
          | none =>
            { response := ⟨RStatus.success, 200, "your reset code has been sent"⟩,
              persisted := some user, notified := some (user.email, token) }
      else
        if body.token ≠ user0.passwordResetToken then
          { response := ⟨RStatus.fail, 400, "invalid reset token"⟩ }
        else
          if env.now > user0.passwordResetTokenExpiresAt then
            let user := { user0 with
              passwordResetToken := generate (env.entropy 0) 6,
              passwordResetTokenExpiresAt := env.now + 3600 }
            match env.updateErr with
            | some e => { response := ⟨RStatus.fail, 400, e⟩ }
            | none =>
              match env.notifyErr with
              | some e =>
                { response := ⟨RStatus.fail, 400, e⟩, persisted := some user,
                  notified := some (user.email, user.emailVerifyToken) }
              | none =>
                { response := ⟨RStatus.fail, 400,
                    "token is expired, a new one has been sent to your mail"⟩,
                  persisted := some user,
                  notified := some (user.email, user.emailVerifyToken) }
          else
            let salt := generate (env.entropy 0) 16
            let user := { user0 with
              passwordResetToken := "",
              passwordSalt := salt,
              password := env.hashFn body.newPassword salt,
              passwordUpdatedOn := env.now }
            match env.updateErr with
            | some e => { response := ⟨RStatus.fail, 400, e⟩ }
            | none =>
              { response := ⟨RStatus.success, 200, "password changed, redirect to login"⟩,
                persisted := some user }

/-- The `POST /email-verify` handler of the password strategy.  The
`action=resend` branch issues a token; the default branch consumes one,
with the self-healing regeneration path on expiry. -/
def emailVerifyHandler (env : PasswordEnv) (action : String) (body : VerifyRequest) : Outcome :=
  match env.decodeErr with
  | some e => { response := ⟨RStatus.error, 500, e⟩ }
  | none =>
    match env.findResult with
    | Except.error e => { response := ⟨RStatus.fail, 400, e⟩ }
    | Except.ok user0 =>
      if action = "resend" then
        let token := generate (env.entropy 0) 4
        let user := { user0 with
          emailVerifyToken := token,
          emailVerifyTokenExpiresAt := env.now + 7200 }
        match env.updateErr with
        | some e => { response := ⟨RStatus.fail, 400, e⟩ }
        | none =>
          match env.notifyErr with
          | some e =>
            { response := ⟨RStatus.fail, 400, e⟩, persisted := some user,
              notified := some (user.email, token) }
          | none =>
            { response := ⟨RStatus.success, 200, "your verification code has been resent"⟩,
              persisted := some user, notified := some (user.email, token) }
      else
        if body.token ≠ user0.emailVerifyToken then
          { response := ⟨RStatus.fail, 400, "invalid verification token"⟩ }
        else
          if env.now > user0.emailVerifyTokenExpiresAt then
            let user := { user0 with
              emailVerifyToken := generate (env.entropy 0) 4,
              emailVerifyTokenExpiresAt := env.now + 7200 }
            match env.updateErr with
            | some e => { response := ⟨RStatus.fail, 400, e⟩ }
            | none =>
              match env.notifyErr with
              | some e =>
                { response := ⟨RStatus.fail, 400, e⟩, persisted := some user,
                  notified := some (user.email, user.emailVerifyToken) }
              | none =>
                { response := ⟨RStatus.fail, 400,
                    "token is expired, a new one has been sent to your mail"⟩,
                  persisted := some user,
                  notified := some (user.email, user.emailVerifyToken) }
          else
            let user := { user0 with
              emailVerifyToken := "",
              emailVerified := true,
              emailVerifyTokenExpiresAt := zeroTimeUnix,
              emailVerifiedAt := env.now }
            match env.updateErr with
            | some e => { response := ⟨RStatus.fail, 400, e⟩ }
            | none =>
              { response := ⟨RStatus.success, 200,
                  "email successfully verified, redirect to login"⟩,
                persisted := some user }

/-- Request body of `POST /magic-link/authorize`. -/
structure PwlRequest where
  email : String := ""
deriving Repr, DecidableEq

/-- Everything a single passwordless request consumes from its
collaborators: JSON decoding, the `token` query parameter, the decrypted
claims map (the `Decrypt` error is discarded by the source, so only the
map matters), the opaque output of `Encrypt`, the store and the
notifier. -/
structure PwlEnv where
  now : Int := 0
  decodeErr : Option String := none
  queryToken : String := ""
  decrypted : List (String × GoValue) := []
  encryptedToken : String := ""
  findResult : Except String User := Except.error "doc not found"
  saveErr : Option String := none
  updateErr : Option String := none
  notifyErr : Option String := none
deriving Repr

/-- Token-issue tail shared verbatim by the passwordless default branch:
build the claims map, encrypt it, notify (the error is discarded by the
source: `_ = cfg.notify(...)`), respond success. -/
def pwlIssue (env : PwlEnv) (body : PwlRequest) (savedUser : Option User) : Outcome :=
  let tokenValues : List (String × GoValue) :=
    [("email", GoValue.vstr body.email), ("expiry", GoValue.vint64 (env.now + 600))]
  { response := ⟨RStatus.success, 200, "please check your email for authentication link"⟩,
    saved := savedUser, encrypted := some tokenValues,
    notified := some (body.email, env.encryptedToken) }

/-- The `POST /magic-link/authorize` handler of the passwordless strategy
(`providers/passwordless/passwordless.go`). -/
def authorize (env : PwlEnv) (action : String) (body : PwlRequest) : Outcome :=
  match env.decodeErr with
  | some _e => { response := ⟨RStatus.error, 500, ""⟩ }
  | none =>
    if action = "authenticate" then
      if env.queryToken = "" then
        { response := ⟨RStatus.error, 400, ""⟩ }
      else
        let tokenValues := env.decrypted
        if goEqString (lookupGo tokenValues "email") body.email = false then
          { response := ⟨RStatus.error, 400, ""⟩ }
        else
          let timestamp := assertInt64 (lookupGo tokenValues "expiry")
          if env.now > timestamp then
            { response := ⟨RStatus.error, 400,
                "validation token has expire, please try again"⟩ }
          else
            match env.findResult with
            | Except.error _ => { response := ⟨RStatus.error, 400, "user not found"⟩ }
            | Except.ok user0 =>
              let user1 := { user0 with lastLogin := env.now }
              let user :=
                if user1.emailVerified = false then { user1 with emailVerified := true }
                else user1
              match env.updateErr with
              | some _ => { response := ⟨RStatus.error, 400, "user not updated"⟩ }
              | none => { response := ⟨RStatus.success, 200, ""⟩, persisted := some user }
    else
      if action = "resend" then
        match env.findResult with
        | Except.error _ => { response := ⟨RStatus.error, 400, "user not found"⟩ }
        | Except.ok _ =>
          let tokenValues : List (String × GoValue) :=
            [("email", GoValue.vstr body.email),
             ("expiry", GoValue.vint64 (env.now + 600))]
          { response := ⟨RStatus.success, 200, ""⟩, encrypted := some tokenValues,
            notified := some (body.email, env.encryptedToken) }
      else
        match env.findResult with
        | Except.error e =>
          if errorsIsFreshNotFound e then
            match env.saveErr with
            | some _ => { response := ⟨RStatus.error, 400, ""⟩ }
            | none => pwlIssue env body (some { email := body.email })
          else
            pwlIssue env body none
        | Except.ok _ => pwlIssue env body none

/-- The shared chi router handed to every strategy at build time. -/
structure Router where
  id : Nat := 0
deriving Repr, DecidableEq

/-- The shared session issuer handed to every strategy at build time. -/
structure Session where
  id : Nat := 0
deriving Repr, DecidableEq

/-- A registered strategy.  `Auth.Build` itself is translated from
`authentication/auth.go`; the hook type is modelled from the spec:
`strategy.Provider` is not among the sources here, and spec section 4.5
(`build() -> error`, failing when an installation fails) requires the
installation hook to be fallible, so it returns `Except String Unit`. -/
structure Provider where
  typ : String
  installHook : Router → Session → Except String Unit

/-- Observable outcome of `Auth.Build`: every hook invocation with its
arguments and its (discarded) result, plus the value `Build` returns. -/
structure BuildResult where
  calls : List ((Router × Session) × Except String Unit)
  buildErr : Option String
deriving Repr

/-- `Auth.Build` from `authentication/auth.go`: iterate the registered
providers, invoke each installation hook with the shared router and
session (the statement `p.Init(a.router, a.session)` uses no result), and
return nil. -/
def Auth.build (providers : List Provider) (router : Router) (session : Session) :
    BuildResult :=
  { calls := providers.map (fun p => ((router, session), p.installHook router session)),
    buildErr := none }

/-- An identity record first persisted by one of the two creation paths:
the password-strategy register handler, or the passwordless lazy
provisioning save. -/
def initialUser (u : User) : Prop :=
  (∃ env body, (registerHandler env body).saved = some u) ∨
  (∃ env action body, (authorize env action body).saved = some u)

/-- One persistence step: some strategy request fetched `u` from the store
and successfully wrote `u'` back. -/
def stepUser (u u' : User) : Prop :=
  (∃ env action body, env.findResult = Except.ok u ∧
    (loginHandler env action body).persisted = some u') ∨
  (∃ env action body, env.findResult = Except.ok u ∧
    (passwordResetHandler env action body).persisted = some u') ∨
  (∃ env action body, env.findResult = Except.ok u ∧
    (emailVerifyHandler env action body).persisted = some u') ∨
  (∃ env action body, env.findResult = Except.ok u ∧
    (authorize env action body).persisted = some u')

/-- Identity states reachable through the strategies: some creation path
produced a first record, and a finite chain of request steps led to `u`. -/
def reachableUser (u : User) : Prop :=
  ∃ u0, initialUser u0 ∧ Relation.ReflTransGen stepUser u0 u

/-- Failed `int64` type assertions yield the zero value. -/
theorem assertInt64_of_not_int64 {v : GoValue} (h : isInt64 v = false) :
    assertInt64 v = 0 := by
  cases v <;> simp_all [isInt64, assertInt64]

/-- C8: for every login request whose fetched identity has
`email_verified = false`, the handler behaves exactly as if the submitted
action were `verify` (it takes the verify branch regardless of the action
parameter), and the hasher comparison is never invoked. -/
theorem c8_unverified_login_forces_verify (env : PasswordEnv) (action : String)
    (body : LoginRequest) (u : User)
    (hf : env.findResult = Except.ok u) (hv : u.emailVerified = false) :
    loginHandler env action body = loginHandler env "verify" body ∧
    (loginHandler env action body).compared = false := by
  obtain ⟨n, nid, ent, hfn, de, fr, se, ue, ne, ce, sr⟩ := env
  simp only at hf
  subst hf
  cases de <;> cases ue <;> cases ne <;> simp_all [loginHandler]

def c8env : PasswordEnv := { findResult := Except.ok { email := "a@x.com" } }

def c8body : LoginRequest := { email := "a@x.com", password := "pw" }

/-- C8 witness: a concrete unverified identity, submitted action `login`. -/
theorem c8_witness :
    c8env.findResult = Except.ok { email := "a@x.com" } ∧
    ({ email := "a@x.com" } : User).emailVerified = false ∧
    (loginHandler c8env "login" c8body = loginHandler c8env "verify" c8body ∧
      (loginHandler c8env "login" c8body).compared = false) :=
  ⟨rfl, rfl, c8_unverified_login_forces_verify c8env "login" c8body _ rfl rfl⟩

/-- C9: in the passwordless authenticate action, when the decrypted
claims map holds an `expiry` whose dynamic type is not `int64`, the failed
type assertion yields timestamp `0`, so (at any positive current time) the
request is rejected, no identity is persisted, and, whenever the email
check passes, the rejection is precisely the expired-token response —
regardless of the actual expiry value carried by the token. -/
theorem c9_nonint64_expiry_rejected (env : PwlEnv) (body : PwlRequest)
    (hd : env.decodeErr = none) (ht : env.queryToken ≠ "")
    (he : isInt64 (lookupGo env.decrypted "expiry") = false)
    (hn : 0 < env.now) :
    (authorize env "authenticate" body).response.status = RStatus.error ∧
    (authorize env "authenticate" body).persisted = none ∧
    (goEqString (lookupGo env.decrypted "email") body.email = true →
      (authorize env "authenticate" body).response =
        ⟨RStatus.error, 400, "validation token has expire, please try again"⟩) := by
  obtain ⟨n, de, qt, dec, et, fr, se, ue, ne⟩ := env
  simp only at hd ht he hn
  subst hd
  have h0 : assertInt64 (lookupGo dec "expiry") = 0 := assertInt64_of_not_int64 he
  by_cases hm : goEqString (lookupGo dec "email") body.email = false <;>
    simp_all [authorize, ht, h0, hn]

def c9env : PwlEnv :=
  { now := 5, queryToken := "t",
    decrypted := [("email", GoValue.vstr "a@x.com"), ("expiry", GoValue.vstr "9999999999")] }

/-- C9 witness: a token whose `expiry` claim deserialized as a string. -/
theorem c9_witness :
    ((authorize c9env "authenticate" { email := "a@x.com" }).response.status = RStatus.error ∧
     (authorize c9env "authenticate" { email := "a@x.com" }).persisted = none ∧
     (goEqString (lookupGo c9env.decrypted "email") "a@x.com" = true →
       (authorize c9env "authenticate" { email := "a@x.com" }).response =
         ⟨RStatus.error, 400, "validation token has expire, please try again"⟩)) :=
  c9_nonint64_expiry_rejected c9env { email := "a@x.com" } rfl (by decide) (by decide) (by decide)

def c1user : User :=
  { email := "a@x.com", password := "oldhash", passwordSalt := "s",
    emailVerifyToken := "VVVV", passwordResetToken := "T1",
    passwordResetTokenExpiresAt := 50 }

def c1env : PasswordEnv := { now := 100, findResult := Except.ok c1user }

def c1body : ResetRequest := { email := "a@x.com", token := "T1", newPassword := "npw" }

/-- C1 (code bug, failing input evaluated): consuming the correct reset
token `T1` after its expiry regenerates a six-character reset token with a
fresh one-hour expiry and persists it, reports expiry, and leaves the
password unchanged — but the notifier is invoked with the identity's
stored email-verify token `VVVV`, not with the freshly generated reset
token `aaaaaa`. -/
theorem c1_expired_reset_emails_verify_token :
    (passwordResetHandler c1env "" c1body).response =
      ⟨RStatus.fail, 400, "token is expired, a new one has been sent to your mail"⟩ ∧
    (passwordResetHandler c1env "" c1body).persisted =
      some { c1user with passwordResetToken := "aaaaaa",
                         passwordResetTokenExpiresAt := 3700 } ∧
    (passwordResetHandler c1env "" c1body).notified = some ("a@x.com", "VVVV") ∧
    ("VVVV" : String) ≠ "aaaaaa" ∧
    ((passwordResetHandler c1env "" c1body).persisted.map User.password) = some "oldhash" := by
  decide

def c2env : PwlEnv := { findResult := Except.error "doc not found", encryptedToken := "tok" }

def c2body : PwlRequest := { email := "new@x.com" }

/-- C2 (code bug, failing input evaluated): the passwordless default
action on an email with no identity (the store reports the error
`doc not found`) never saves a bare identity — the guard
`errors.Is(err, errors.New("doc not found"))` is false for every error —
yet still notifies the magic link and responds success. -/
theorem c2_lazy_provisioning_dead :
    (authorize c2env "" c2body).saved = none ∧
    (authorize c2env "" c2body).response =
      ⟨RStatus.success, 200, "please check your email for authentication link"⟩ ∧
    (authorize c2env "" c2body).notified = some ("new@x.com", "tok") ∧
    errorsIsFreshNotFound "doc not found" = false := by
  decide

def c3regEnv : PasswordEnv := { newId := "id1", hashFn := fun _ _ => "H" }

def c3regBody : RegisterRequest := { email := "a@x.com", password := "pw" }

/-- Identity persisted by registering `a@x.com` under `c3regEnv`. -/
def c3u0 : User :=
  { id := "id1", email := "a@x.com", password := "H",
    passwordSalt := "aaaaaaaaaaaaaaaa", emailVerifyToken := "aaaa",
    emailVerifyTokenExpiresAt := 7200 }

def c3pwlEnv : PwlEnv :=
  { now := 1, queryToken := "t",
    decrypted := [("email", GoValue.vstr "a@x.com"), ("expiry", GoValue.vint64 100)],
    findResult := Except.ok c3u0 }

/-- Identity persisted by a subsequent passwordless authenticate. -/
def c3u1 : User := { c3u0 with lastLogin := 1, emailVerified := true }

/-- C3 counterexample: the claimed invariant
`email_verified = true → email_verify_token = ""` fails on a reachable
state — register `a@x.com` (persisting a pending four-character verify
token), then authenticate through a valid magic link: the passwordless
branch sets `email_verified = true` without clearing the stored verify
token. -/
theorem c3_counterexample :
    ¬ (∀ u : User, reachableUser u → u.emailVerified = true → u.emailVerifyToken = "") := by
  intro h
  have hreach : reachableUser c3u1 := by
    refine ⟨c3u0, Or.inl ⟨c3regEnv, c3regBody, by decide⟩, ?_⟩
    exact Relation.ReflTransGen.single
      (Or.inr (Or.inr (Or.inr ⟨c3pwlEnv, "authenticate", { email := "a@x.com" }, rfl, by decide⟩)))
  exact absurd (h c3u1 hreach (by decide)) (by decide)

/-- C3 amended: the invariant is established by the email-verify consume
path — whenever that path answers success, the persisted identity is
verified, with an empty verify token and a cleared expiry — but it is not
preserved by every operation (resend on a verified identity, the login
verify branch invoked with `action=verify` on a verified identity, and
passwordless authenticate can all leave a verified identity holding a
non-empty verify token, as the counterexample shows). -/
theorem c3_amended (env : PasswordEnv) (body : VerifyRequest) (u1 : User)
    (hs : (emailVerifyHandler env "" body).response.status = RStatus.success)
    (hp : (emailVerifyHandler env "" body).persisted = some u1) :
    u1.emailVerified = true ∧ u1.emailVerifyToken = "" ∧
    u1.emailVerifyTokenExpiresAt = zeroTimeUnix := by
  obtain ⟨n, nid, ent, hfn, de, fr, se, ue, ne, ce, sr⟩ := env
  cases de <;> cases fr <;> cases ue <;> cases ne <;>
    simp_all [emailVerifyHandler] <;> split_ifs at hs hp <;> simp_all <;>
    (rw [← hp]; simp)

def c3wEnv : PasswordEnv :=
  { now := 10,
    findResult := Except.ok { email := "a@x.com", emailVerifyToken := "VVVV",
                              emailVerifyTokenExpiresAt := 50 } }

def c3wBody : VerifyRequest := { email := "a@x.com", token := "VVVV" }

def c3wUser : User :=
  { email := "a@x.com", emailVerifyToken := "", emailVerified := true,
    emailVerifyTokenExpiresAt := zeroTimeUnix, emailVerifiedAt := 10 }

/-- The login verify branch pairs the fresh four-character verify token
with the expiry now+7200. -/
theorem loginVerify_issues (e : PasswordEnv) (b : LoginRequest) (u : User)
    (h : (loginHandler e "verify" b).persisted = some u) (h0 : 0 ≤ e.now) :
    u.emailVerifyToken.length = 4 ∧ u.emailVerifyTokenExpiresAt = e.now + 7200 ∧
    u.emailVerifyTokenExpiresAt ≠ zeroTimeUnix := by
  obtain ⟨n, nid, ent, hfn, de, fr, se, ue, ne, ce, sr⟩ := e
  simp only at h0
  cases de <;> cases fr <;> cases ue <;> cases ne <;>
    simp_all [loginHandler, zeroTimeUnix] <;>
    (rw [← h]; simp [generate_length]) <;> omega

/-- The register handler pairs the fresh four-character verify token of
the newly created identity with the expiry now+7200. -/
theorem register_issues (e : PasswordEnv) (b : RegisterRequest) (u : User)
    (h : (registerHandler e b).saved = some u) (h0 : 0 ≤ e.now) :
    u.emailVerifyToken.length = 4 ∧ u.emailVerifyTokenExpiresAt = e.now + 7200 ∧
    u.emailVerifyTokenExpiresAt ≠ zeroTimeUnix := by
  obtain ⟨n, nid, ent, hfn, de, fr, se, ue, ne, ce, sr⟩ := e
  simp only at h0
  cases de <;> cases se <;> cases ne <;>
    simp_all [registerHandler, zeroTimeUnix] <;>
    (rw [← h]; simp [generate_length]) <;> omega

/-- The password-reset request branch pairs the fresh six-character reset
token with the expiry now+3600. -/
theorem resetRequest_issues (e : PasswordEnv) (b : ResetRequest) (u : User)
    (h : (passwordResetHandler e "reset" b).persisted = some u) (h0 : 0 ≤ e.now) :
    u.passwordResetToken.length = 6 ∧ u.passwordResetTokenExpiresAt = e.now + 3600 ∧
    u.passwordResetTokenExpiresAt ≠ zeroTimeUnix := by
  obtain ⟨n, nid, ent, hfn, de, fr, se, ue, ne, ce, sr⟩ := e
  simp only at h0
  cases de <;> cases fr <;> cases ue <;> cases ne <;>
    simp_all [passwordResetHandler, zeroTimeUnix] <;>
    (rw [← h]; simp [generate_length]) <;> omega

/-- The email-verify resend branch pairs the fresh four-character verify
token with the expiry now+7200. -/
theorem verifyResend_issues (e : PasswordEnv) (b : VerifyRequest) (u : User)
    (h : (emailVerifyHandler e "resend" b).persisted = some u) (h0 : 0 ≤ e.now) :
    u.emailVerifyToken.length = 4 ∧ u.emailVerifyTokenExpiresAt = e.now + 7200 ∧
    u.emailVerifyTokenExpiresAt ≠ zeroTimeUnix := by
  obtain ⟨n, nid, ent, hfn, de, fr, se, ue, ne, ce, sr⟩ := e
  simp only at h0
  cases de <;> cases fr <;> cases ue <;> cases ne <;>
    simp_all [emailVerifyHandler, zeroTimeUnix] <;>
    (rw [← h]; simp [generate_length]) <;> omega

/-- The successful email-verify consumption clears both the verify token
and its expiry. -/
theorem verifyConsume_success_clears (e : PasswordEnv) (b : VerifyRequest) (u : User)
    (hs : (emailVerifyHandler e "" b).response.status = RStatus.success)
    (hp : (emailVerifyHandler e "" b).persisted = some u) :
    u.emailVerifyToken = "" ∧ u.emailVerifyTokenExpiresAt = zeroTimeUnix := by
  obtain ⟨n, nid, ent, hfn, de, fr, se, ue, ne, ce, sr⟩ := e
  cases de <;> cases fr <;> cases ue <;> cases ne <;>
    simp_all [emailVerifyHandler] <;> split_ifs at hs hp <;> simp_all <;>
    (rw [← hp]; simp)

/-- The successful password-reset consumption clears the reset token but
leaves the stored reset expiry unchanged. -/
theorem resetConsume_success_keeps_expiry (e : PasswordEnv) (b : ResetRequest)
    (u0 u : User) (hf : e.findResult = Except.ok u0)
    (hs : (passwordResetHandler e "" b).response.status = RStatus.success)
    (hp : (passwordResetHandler e "" b).persisted = some u) :
    u.passwordResetToken = "" ∧
    u.passwordResetTokenExpiresAt = u0.passwordResetTokenExpiresAt := by
  obtain ⟨n, nid, ent, hfn, de, fr, se, ue, ne, ce, sr⟩ := e
  simp only at hf
  subst hf
  cases de <;> cases ue <;> cases ne <;>
    simp_all [passwordResetHandler] <;> split_ifs at hs hp <;> simp_all <;>
    (rw [← hp]; simp)

/-- A failing password-reset consumption that still persists a user is the
regeneration path: it replaces token and expiry with fresh values. -/
theorem resetConsume_fail_regenerates (e : PasswordEnv) (b : ResetRequest) (u : User)
    (hs : (passwordResetHandler e "" b).response.status = RStatus.fail)
    (hp : (passwordResetHandler e "" b).persisted = some u) :
    u.passwordResetToken.length = 6 ∧ u.passwordResetTokenExpiresAt = e.now + 3600 := by
  obtain ⟨n, nid, ent, hfn, de, fr, se, ue, ne, ce, sr⟩ := e
  cases de <;> cases fr <;> cases ue <;> cases ne <;>
    simp_all [passwordResetHandler] <;> split_ifs at hs hp <;> simp_all <;>
    (rw [← hp]; simp [generate_length])

/-- A failing email-verify consumption that still persists a user is the
regeneration path: it replaces token and expiry with fresh values. -/
theorem verifyConsume_fail_regenerates (e : PasswordEnv) (b : VerifyRequest) (u : User)
    (hs : (emailVerifyHandler e "" b).response.status = RStatus.fail)
    (hp : (emailVerifyHandler e "" b).persisted = some u) :
    u.emailVerifyToken.length = 4 ∧ u.emailVerifyTokenExpiresAt = e.now + 7200 := by
  obtain ⟨n, nid, ent, hfn, de, fr, se, ue, ne, ce, sr⟩ := e
  cases de <;> cases fr <;> cases ue <;> cases ne <;>
    simp_all [emailVerifyHandler] <;> split_ifs at hs hp <;> simp_all <;>
    (rw [← hp]; simp [generate_length])

/-- Every claims map the passwordless handler encrypts carries the expiry
now+600. -/
theorem authorize_encrypted_expiry (e : PwlEnv) (a : String) (b : PwlRequest)
    (m : List (String × GoValue)) (h : (authorize e a b).encrypted = some m) :
    lookupGo m "expiry" = GoValue.vint64 (e.now + 600) := by
  obtain ⟨n, de, qt, dec, et, fr, se, ue, ne⟩ := e
  cases de <;> cases fr <;> cases ue <;> cases ne <;> cases se <;>
    simp_all [authorize, pwlIssue, errorsIsFreshNotFound] <;>
    split_ifs at h <;> simp_all <;> (rw [← h]; simp [lookupGo])

def c4xUser : User :=
  { email := "a@x.com", passwordResetToken := "T1", passwordResetTokenExpiresAt := 50 }

def c4xEnv : PasswordEnv := { now := 10, findResult := Except.ok c4xUser }

def c4xBody : ResetRequest := { email := "a@x.com", token := "T1", newPassword := "npw" }

/-- C4 counterexample: the successful password-reset consumption does not
clear both token and expiry — at a concrete run it answers success and
clears the token, but leaves the stored reset expiry at its old value. -/
theorem c4_counterexample :
    ¬ (∀ (env : PasswordEnv) (body : ResetRequest) (u0 u : User),
        env.findResult = Except.ok u0 →
        (passwordResetHandler env "" body).response.status = RStatus.success →
        (passwordResetHandler env "" body).persisted = some u →
        u.passwordResetToken = "" ∧ u.passwordResetTokenExpiresAt = zeroTimeUnix) := by
  intro h
  have := h c4xEnv c4xBody c4xUser _ rfl (by decide) rfl
  exact absurd this.2 (by decide)

/-- C4 amended: every issuing path (the login verify gate, registration,
the password-reset request, the email-verify resend) pairs the fresh
token with the expiry issuance-time-plus-TTL (hence, at non-negative
clock values, a non-empty expiry); the email-verify consume success
clears both token and expiry;
the password-reset consume success clears only the token and leaves the
stored expiry unchanged; the two expiry-triggered regeneration paths
replace token and expiry with fresh values rather than clearing them; and
the magic-link claims map always carries the expiry now+600. -/
theorem c4_amended
    (eA : PasswordEnv) (bA : LoginRequest) (uA : User)
    (hA : (loginHandler eA "verify" bA).persisted = some uA) (hA0 : 0 ≤ eA.now)
    (eR : PasswordEnv) (bR : RegisterRequest) (uR : User)
    (hR : (registerHandler eR bR).saved = some uR) (hR0 : 0 ≤ eR.now)
    (eB : PasswordEnv) (bB : ResetRequest) (uB : User)
    (hB : (passwordResetHandler eB "reset" bB).persisted = some uB) (hB0 : 0 ≤ eB.now)
    (eC : PasswordEnv) (bC : VerifyRequest) (uC : User)
    (hC : (emailVerifyHandler eC "resend" bC).persisted = some uC) (hC0 : 0 ≤ eC.now)
    (eD : PasswordEnv) (bD : VerifyRequest) (uD : User)
    (hDs : (emailVerifyHandler eD "" bD).response.status = RStatus.success)
    (hDp : (emailVerifyHandler eD "" bD).persisted = some uD)
    (eE : PasswordEnv) (bE : ResetRequest) (uE0 uE : User)
    (hEf : eE.findResult = Except.ok uE0)
    (hEs : (passwordResetHandler eE "" bE).response.status = RStatus.success)
    (hEp : (passwordResetHandler eE "" bE).persisted = some uE)
    (eF : PasswordEnv) (bF : ResetRequest) (uF : User)
    (hFs : (passwordResetHandler eF "" bF).response.status = RStatus.fail)
    (hFp : (passwordResetHandler eF "" bF).persisted = some uF)
    (eG : PasswordEnv) (bG : VerifyRequest) (uG : User)
    (hGs : (emailVerifyHandler eG "" bG).response.status = RStatus.fail)
    (hGp : (emailVerifyHandler eG "" bG).persisted = some uG)
    (eH : PwlEnv) (aH : String) (bH : PwlRequest) (mH : List (String × GoValue))
    (hH : (authorize eH aH bH).encrypted = some mH) :
    (uA.emailVerifyToken.length = 4 ∧ uA.emailVerifyTokenExpiresAt = eA.now + 7200 ∧
      uA.emailVerifyTokenExpiresAt ≠ zeroTimeUnix) ∧
    (uR.emailVerifyToken.length = 4 ∧ uR.emailVerifyTokenExpiresAt = eR.now + 7200 ∧
      uR.emailVerifyTokenExpiresAt ≠ zeroTimeUnix) ∧
    (uB.passwordResetToken.length = 6 ∧ uB.passwordResetTokenExpiresAt = eB.now + 3600 ∧
      uB.passwordResetTokenExpiresAt ≠ zeroTimeUnix) ∧
    (uC.emailVerifyToken.length = 4 ∧ uC.emailVerifyTokenExpiresAt = eC.now + 7200 ∧
      uC.emailVerifyTokenExpiresAt ≠ zeroTimeUnix) ∧
    (uD.emailVerifyToken = "" ∧ uD.emailVerifyTokenExpiresAt = zeroTimeUnix) ∧
    (uE.passwordResetToken = "" ∧
      uE.passwordResetTokenExpiresAt = uE0.passwordResetTokenExpiresAt) ∧
    (uF.passwordResetToken.length = 6 ∧ uF.passwordResetTokenExpiresAt = eF.now + 3600) ∧
    (uG.emailVerifyToken.length = 4 ∧ uG.emailVerifyTokenExpiresAt = eG.now + 7200) ∧
    lookupGo mH "expiry" = GoValue.vint64 (eH.now + 600) :=
  ⟨loginVerify_issues eA bA uA hA hA0,
   register_issues eR bR uR hR hR0,
   resetRequest_issues eB bB uB hB hB0,
   verifyResend_issues eC bC uC hC hC0,
   verifyConsume_success_clears eD bD uD hDs hDp,
   resetConsume_success_keeps_expiry eE bE uE0 uE hEf hEs hEp,
   resetConsume_fail_regenerates eF bF uF hFs hFp,
   verifyConsume_fail_regenerates eG bG uG hGs hGp,
   authorize_encrypted_expiry eH aH bH mH hH⟩

def c4eA : PasswordEnv := { findResult := Except.ok { email := "a" } }

def c4uA : User := { email := "a", emailVerifyToken := "aaaa", emailVerifyTokenExpiresAt := 7200 }

def c4eR : PasswordEnv := {}

def c4uR : User :=
  { email := "a", passwordSalt := "aaaaaaaaaaaaaaaa", password := "pwaaaaaaaaaaaaaaaa",
    emailVerifyToken := "aaaa", emailVerifyTokenExpiresAt := 7200 }

def c4eB : PasswordEnv := { findResult := Except.ok { email := "a" } }

def c4uB : User :=
  { email := "a", passwordResetToken := "aaaaaa", passwordResetTokenExpiresAt := 3600 }

def c4eC : PasswordEnv := { findResult := Except.ok { email := "a" } }

def c4uC : User := { email := "a", emailVerifyToken := "aaaa", emailVerifyTokenExpiresAt := 7200 }

def c4eD : PasswordEnv :=
  { now := 10, findResult := Except.ok { email := "a", emailVerifyToken := "V",
                                         emailVerifyTokenExpiresAt := 50 } }

def c4uD : User :=
  { email := "a", emailVerified := true, emailVerifyToken := "",
    emailVerifyTokenExpiresAt := zeroTimeUnix, emailVerifiedAt := 10 }

def c4uE0 : User := { email := "a", passwordResetToken := "T", passwordResetTokenExpiresAt := 50 }

def c4eE : PasswordEnv := { now := 10, findResult := Except.ok c4uE0 }

def c4uE : User :=
  { email := "a", passwordResetToken := "", passwordResetTokenExpiresAt := 50,
    passwordSalt := "aaaaaaaaaaaaaaaa", password := "npaaaaaaaaaaaaaaaa",
    passwordUpdatedOn := 10 }

def c4eF : PasswordEnv :=
  { now := 100, findResult := Except.ok { email := "a", passwordResetToken := "T",
                                          passwordResetTokenExpiresAt := 50 } }

def c4uF : User :=
  { email := "a", passwordResetToken := "aaaaaa", passwordResetTokenExpiresAt := 3700 }

def c4eG : PasswordEnv :=
  { now := 100, findResult := Except.ok { email := "a", emailVerifyToken := "V",
                                          emailVerifyTokenExpiresAt := 50 } }

def c4uG : User :=
  { email := "a", emailVerifyToken := "aaaa", emailVerifyTokenExpiresAt := 7300 }

def c4eH : PwlEnv := { findResult := Except.ok { email := "a" } }

def c4mH : List (String × GoValue) :=
  [("email", GoValue.vstr "a"), ("expiry", GoValue.vint64 600)]

/-- C4 amended witness: one concrete run per issuing, consuming and
regenerating path. -/
theorem c4_amended_witness :
    (c4uA.emailVerifyToken.length = 4 ∧ c4uA.emailVerifyTokenExpiresAt = c4eA.now + 7200 ∧
      c4uA.emailVerifyTokenExpiresAt ≠ zeroTimeUnix) ∧
    (c4uR.emailVerifyToken.length = 4 ∧ c4uR.emailVerifyTokenExpiresAt = c4eR.now + 7200 ∧
      c4uR.emailVerifyTokenExpiresAt ≠ zeroTimeUnix) ∧
    (c4uB.passwordResetToken.length = 6 ∧ c4uB.passwordResetTokenExpiresAt = c4eB.now + 3600 ∧
      c4uB.passwordResetTokenExpiresAt ≠ zeroTimeUnix) ∧
    (c4uC.emailVerifyToken.length = 4 ∧ c4uC.emailVerifyTokenExpiresAt = c4eC.now + 7200 ∧
      c4uC.emailVerifyTokenExpiresAt ≠ zeroTimeUnix) ∧
    (c4uD.emailVerifyToken = "" ∧ c4uD.emailVerifyTokenExpiresAt = zeroTimeUnix) ∧
    (c4uE.passwordResetToken = "" ∧
      c4uE.passwordResetTokenExpiresAt = c4uE0.passwordResetTokenExpiresAt) ∧
    (c4uF.passwordResetToken.length = 6 ∧ c4uF.passwordResetTokenExpiresAt = c4eF.now + 3600) ∧
    (c4uG.emailVerifyToken.length = 4 ∧ c4uG.emailVerifyTokenExpiresAt = c4eG.now + 7200) ∧
    lookupGo c4mH "expiry" = GoValue.vint64 (c4eH.now + 600) :=
  c4_amended c4eA { email := "a" } c4uA (by decide) (by decide)
    c4eR { email := "a", password := "pw" } c4uR (by decide) (by decide)
    c4eB { email := "a" } c4uB (by decide) (by decide)
    c4eC { email := "a" } c4uC (by decide) (by decide)
    c4eD { email := "a", token := "V" } c4uD (by decide) (by decide)
    c4eE { email := "a", token := "T", newPassword := "np" } c4uE0 c4uE rfl (by decide) (by decide)
    c4eF { email := "a", token := "T" } c4uF (by decide) (by decide)
    c4eG { email := "a", token := "V" } c4uG (by decide) (by decide)
    c4eH "resend" { email := "a" } c4mH (by decide)

def c5envA : PasswordEnv := { findResult := Except.error "doc not found" }

def c5envB : PasswordEnv :=
  { findResult := Except.ok { email := "a@x.com", emailVerified := true },
    compareErr := some argonCompareMsg }

def c5body : LoginRequest := { email := "a@x.com", password := "guess" }

/-- C5 counterexample: a login against an absent identity and a login with
a wrong secret both fail with status `fail` and code 400, but carry the
respective error texts (the store text versus the hasher text), so the two
caller-visible responses are not identical. -/
theorem c5_counterexample :
    ¬ (∀ (env1 env2 : PasswordEnv) (a1 a2 : String) (b1 b2 : LoginRequest)
        (e1 e2 : String) (u : User),
        env1.decodeErr = none → env1.findResult = Except.error e1 →
        env2.decodeErr = none → env2.findResult = Except.ok u →
        u.emailVerified = true → a2 ≠ "verify" → env2.compareErr = some e2 →
        (loginHandler env1 a1 b1).response = (loginHandler env2 a2 b2).response) := by
  intro h
  have := h c5envA c5envB "" "" c5body c5body "doc not found" argonCompareMsg
    { email := "a@x.com", emailVerified := true }
    rfl rfl rfl rfl rfl (by decide) rfl
  exact absurd this (by decide)

/-- C5 amended: the not-found response and the secret-mismatch response
agree in status class (`fail`) and status code (400), but each carries the
message text of the underlying error, so the texts differ whenever the
store error text differs from the hasher error text. -/
theorem c5_amended (env1 env2 : PasswordEnv) (a1 a2 : String) (b1 b2 : LoginRequest)
    (e1 e2 : String) (u : User)
    (h1d : env1.decodeErr = none) (h1f : env1.findResult = Except.error e1)
    (h2d : env2.decodeErr = none) (h2f : env2.findResult = Except.ok u)
    (h2v : u.emailVerified = true) (h2a : a2 ≠ "verify") (h2c : env2.compareErr = some e2) :
    (loginHandler env1 a1 b1).response = ⟨RStatus.fail, 400, e1⟩ ∧
    (loginHandler env2 a2 b2).response = ⟨RStatus.fail, 400, e2⟩ ∧
    (loginHandler env1 a1 b1).response.status = (loginHandler env2 a2 b2).response.status ∧
    (loginHandler env1 a1 b1).response.code = (loginHandler env2 a2 b2).response.code := by
  obtain ⟨n, nid, ent, hfn, de, fr, se, ue, ne, ce, sr⟩ := env1
  obtain ⟨n2, nid2, ent2, hfn2, de2, fr2, se2, ue2, ne2, ce2, sr2⟩ := env2
  simp only at h1d h1f h2d h2f h2c
  subst h1d h1f h2d h2f h2c
  simp [loginHandler, h2v, h2a]

/-- C5 amended witness: concrete store and hasher error texts. -/
theorem c5_amended_witness :
    (loginHandler c5envA "" c5body).response = ⟨RStatus.fail, 400, "doc not found"⟩ ∧
    (loginHandler c5envB "" c5body).response = ⟨RStatus.fail, 400, argonCompareMsg⟩ ∧
    (loginHandler c5envA "" c5body).response.status =
      (loginHandler c5envB "" c5body).response.status ∧
    (loginHandler c5envA "" c5body).response.code =
      (loginHandler c5envB "" c5body).response.code :=
  c5_amended c5envA c5envB "" "" c5body c5body "doc not found" argonCompareMsg
    { email := "a@x.com", emailVerified := true }
    rfl rfl rfl rfl rfl (by decide) rfl

/-- If the login handler invoked the notifier and the notifier failed,
the response is the failure carrying the notifier error. -/
theorem login_notify_error_fails (e : PasswordEnv) (a : String) (b : LoginRequest)
    (m : String) (h : e.notifyErr = some m)
    (hs : (loginHandler e a b).notified.isSome = true) :
    (loginHandler e a b).response = ⟨RStatus.fail, 400, m⟩ := by
  obtain ⟨n, nid, ent, hfn, de, fr, se, ue, ne, ce, sr⟩ := e
  simp only at h
  subst h
  cases de <;> cases fr <;> cases ue <;> cases ce <;> cases sr <;>
    simp_all [loginHandler] <;> split_ifs at hs <;> simp_all

/-- If the register handler invoked the notifier and the notifier failed,
the response is the failure carrying the notifier error. -/
theorem register_notify_error_fails (e : PasswordEnv) (b : RegisterRequest)
    (m : String) (h : e.notifyErr = some m)
    (hs : (registerHandler e b).notified.isSome = true) :
    (registerHandler e b).response = ⟨RStatus.fail, 400, m⟩ := by
  obtain ⟨n, nid, ent, hfn, de, fr, se, ue, ne, ce, sr⟩ := e
  simp only at h
  subst h
  cases de <;> cases se <;> simp_all [registerHandler]

/-- If the password-reset handler invoked the notifier and the notifier
failed, the response is the failure carrying the notifier error. -/
theorem reset_notify_error_fails (e : PasswordEnv) (a : String) (b : ResetRequest)
    (m : String) (h : e.notifyErr = some m)
    (hs : (passwordResetHandler e a b).notified.isSome = true) :
    (passwordResetHandler e a b).response = ⟨RStatus.fail, 400, m⟩ := by
  obtain ⟨n, nid, ent, hfn, de, fr, se, ue, ne, ce, sr⟩ := e
  simp only at h
  subst h
  cases de <;> cases fr <;> cases ue <;>
    simp_all [passwordResetHandler] <;> split_ifs at hs <;> simp_all

/-- If the email-verify handler invoked the notifier and the notifier
failed, the response is the failure carrying the notifier error. -/
theorem verify_notify_error_fails (e : PasswordEnv) (a : String) (b : VerifyRequest)
    (m : String) (h : e.notifyErr = some m)
    (hs : (emailVerifyHandler e a b).notified.isSome = true) :
    (emailVerifyHandler e a b).response = ⟨RStatus.fail, 400, m⟩ := by
  obtain ⟨n, nid, ent, hfn, de, fr, se, ue, ne, ce, sr⟩ := e
  simp only at h
  subst h
  cases de <;> cases fr <;> cases ue <;>
    simp_all [emailVerifyHandler] <;> split_ifs at hs <;> simp_all

def c6xEnv : PwlEnv :=
  { findResult := Except.ok { email := "a@x.com" }, notifyErr := some "smtp down",
    encryptedToken := "tok" }

/-- C6 counterexample: the passwordless resend branch invokes the notifier,
the notifier fails, and the handler still answers success — a notifier
failure followed by a success response. -/
theorem c6_counterexample :
    ¬ (∀ (env : PwlEnv) (action : String) (body : PwlRequest) (m : String),
        env.notifyErr = some m → (authorize env action body).notified.isSome = true →
        (authorize env action body).response.status ≠ RStatus.success) := by
  intro h
  exact h c6xEnv "resend" { email := "a@x.com" } "smtp down" rfl (by decide) (by decide)

/-- C6 amended: in the password strategy every handler that has invoked
the notifier surfaces a notifier error as the failure response carrying
that error text (login, register, password-reset, email-verify); the
passwordless authorize handler, by contrast, discards notifier errors
(see the counterexample). -/
theorem c6_amended
    (e1 : PasswordEnv) (a1 : String) (b1 : LoginRequest) (m1 : String)
    (h1 : e1.notifyErr = some m1) (h1s : (loginHandler e1 a1 b1).notified.isSome = true)
    (e2 : PasswordEnv) (b2 : RegisterRequest) (m2 : String)
    (h2 : e2.notifyErr = some m2) (h2s : (registerHandler e2 b2).notified.isSome = true)
    (e3 : PasswordEnv) (a3 : String) (b3 : ResetRequest) (m3 : String)
    (h3 : e3.notifyErr = some m3) (h3s : (passwordResetHandler e3 a3 b3).notified.isSome = true)
    (e4 : PasswordEnv) (a4 : String) (b4 : VerifyRequest) (m4 : String)
    (h4 : e4.notifyErr = some m4) (h4s : (emailVerifyHandler e4 a4 b4).notified.isSome = true) :
    (loginHandler e1 a1 b1).response = ⟨RStatus.fail, 400, m1⟩ ∧
    (registerHandler e2 b2).response = ⟨RStatus.fail, 400, m2⟩ ∧
    (passwordResetHandler e3 a3 b3).response = ⟨RStatus.fail, 400, m3⟩ ∧
    (emailVerifyHandler e4 a4 b4).response = ⟨RStatus.fail, 400, m4⟩ :=
  ⟨login_notify_error_fails e1 a1 b1 m1 h1 h1s,
   register_notify_error_fails e2 b2 m2 h2 h2s,
   reset_notify_error_fails e3 a3 b3 m3 h3 h3s,
   verify_notify_error_fails e4 a4 b4 m4 h4 h4s⟩

def c6wEnvLogin : PasswordEnv :=
  { findResult := Except.ok { email := "a" }, notifyErr := some "boom" }

def c6wEnvReg : PasswordEnv := { notifyErr := some "boom" }

/-- C6 amended witness: concrete notifier failures on each password
handler. -/
theorem c6_amended_witness :
    (loginHandler c6wEnvLogin "login" { email := "a" }).response = ⟨RStatus.fail, 400, "boom"⟩ ∧
    (registerHandler c6wEnvReg { email := "a" }).response = ⟨RStatus.fail, 400, "boom"⟩ ∧
    (passwordResetHandler c6wEnvLogin "reset" { email := "a" }).response =
      ⟨RStatus.fail, 400, "boom"⟩ ∧
    (emailVerifyHandler c6wEnvLogin "resend" { email := "a" }).response =
      ⟨RStatus.fail, 400, "boom"⟩ :=
  c6_amended c6wEnvLogin "login" { email := "a" } "boom" rfl (by decide)
    c6wEnvReg { email := "a" } "boom" rfl (by decide)
    c6wEnvLogin "reset" { email := "a" } "boom" rfl (by decide)
    c6wEnvLogin "resend" { email := "a" } "boom" rfl (by decide)

/-- C3 amended witness: a concrete successful email-verify consumption. -/
theorem c3_amended_witness :
    ((emailVerifyHandler c3wEnv "" c3wBody).response.status = RStatus.success ∧
     (emailVerifyHandler c3wEnv "" c3wBody).persisted = some c3wUser) ∧
    (c3wUser.emailVerified = true ∧ c3wUser.emailVerifyToken = "" ∧
     c3wUser.emailVerifyTokenExpiresAt = zeroTimeUnix) :=
  ⟨⟨by decide, by decide⟩, c3_amended c3wEnv c3wBody c3wUser (by decide) (by decide)⟩

def c7failing : Provider :=
  { typ := "x", installHook := fun _ _ => Except.error "install failed" }

/-- C7 counterexample: a registered strategy whose installation hook fails
does not make `Build` return an error — `Build` returns nil regardless. -/
theorem c7_counterexample :
    ¬ (∀ (ps : List Provider) (r : Router) (s : Session),
        (∃ p ∈ ps, ∃ m, p.installHook r s = Except.error m) →
        (Auth.build ps r s).buildErr ≠ none) := by
  intro h
  exact h [c7failing] {} {} ⟨c7failing, by simp, "install failed", rfl⟩ rfl

/-- C7 amended: `Build` invokes the installation hook of every registered
strategy with the shared router and session, in registration order, and
always returns no error — a hook failure is discarded, not propagated. -/
theorem c7_amended (ps : List Provider) (r : Router) (s : Session) :
    (Auth.build ps r s).buildErr = none ∧
    (Auth.build ps r s).calls = ps.map (fun p => ((r, s), p.installHook r s)) :=
  ⟨rfl, rfl⟩

def c10xUser : User :=
  { email := "a@x.com", passwordResetToken := "", passwordResetTokenExpiresAt := 3600 }

def c10xEnv : PasswordEnv := { now := 20, findResult := Except.ok c10xUser }

def c10xBody : ResetRequest := { email := "a@x.com", token := "", newPassword := "npw" }

/-- C10 counterexample: an empty submitted token against an identity whose
stored reset token is empty does pass the equality check, but does not
always land in the expiry branch — here the stored expiry (left behind by
an earlier consumption, which does not clear it) is still in the future,
so the handler proceeds to the success branch and changes the password
instead of reporting expiry. -/
theorem c10_counterexample :
    ¬ (∀ (env : PasswordEnv) (body : ResetRequest) (u : User),
        env.findResult = Except.ok u → u.passwordResetToken = "" → body.token = "" →
        (passwordResetHandler env "" body).response =
          ⟨RStatus.fail, 400, "token is expired, a new one has been sent to your mail"⟩) := by
  intro h
  have := h c10xEnv c10xBody c10xUser rfl rfl rfl
  exact absurd this (by decide)

/-- C10 amended: the token check is plain string equality, so an empty
submitted token for an identity whose stored token is empty passes the
check; when the stored expiry has additionally elapsed (always the case
for email-verify, whose consumption clears the expiry to the zero time,
and for never-issued tokens), the request lands in the expiry branch,
which generates a fresh token, persists it with a fresh expiry, and sends
an email — the fresh token itself for email-verify, but the stored
email-verify token for password-reset; when the stale reset expiry has
not yet elapsed, the password-reset success branch runs instead (see the
counterexample). -/
theorem c10_amended
    (e1 : PasswordEnv) (b1 : ResetRequest) (u1 : User)
    (h1d : e1.decodeErr = none) (h1f : e1.findResult = Except.ok u1)
    (h1t : u1.passwordResetToken = "") (h1b : b1.token = "")
    (h1x : u1.passwordResetTokenExpiresAt < e1.now)
    (h1u : e1.updateErr = none) (h1n : e1.notifyErr = none)
    (e2 : PasswordEnv) (b2 : VerifyRequest) (u2 : User)
    (h2d : e2.decodeErr = none) (h2f : e2.findResult = Except.ok u2)
    (h2t : u2.emailVerifyToken = "") (h2b : b2.token = "")
    (h2x : u2.emailVerifyTokenExpiresAt < e2.now)
    (h2u : e2.updateErr = none) (h2n : e2.notifyErr = none) :
    ((passwordResetHandler e1 "" b1).response =
        ⟨RStatus.fail, 400, "token is expired, a new one has been sent to your mail"⟩ ∧
     (passwordResetHandler e1 "" b1).persisted =
        some { u1 with passwordResetToken := generate (e1.entropy 0) 6,
                       passwordResetTokenExpiresAt := e1.now + 3600 } ∧
     (passwordResetHandler e1 "" b1).notified = some (u1.email, u1.emailVerifyToken)) ∧
    ((emailVerifyHandler e2 "" b2).response =
        ⟨RStatus.fail, 400, "token is expired, a new one has been sent to your mail"⟩ ∧
     (emailVerifyHandler e2 "" b2).persisted =
        some { u2 with emailVerifyToken := generate (e2.entropy 0) 4,
                       emailVerifyTokenExpiresAt := e2.now + 7200 } ∧
     (emailVerifyHandler e2 "" b2).notified = some (u2.email, generate (e2.entropy 0) 4)) := by
  constructor
  · obtain ⟨n, nid, ent, hfn, de, fr, se, ue, ne, ce, sr⟩ := e1
    simp only at h1d h1f h1x h1u h1n
    subst h1d h1f h1u h1n
    simp [passwordResetHandler, h1t, h1b, h1x]
  · obtain ⟨n, nid, ent, hfn, de, fr, se, ue, ne, ce, sr⟩ := e2
    simp only at h2d h2f h2x h2u h2n
    subst h2d h2f h2u h2n
    simp [emailVerifyHandler, h2t, h2b, h2x]

def c10wUser1 : User := { email := "a@x.com", emailVerifyToken := "VVVV" }

def c10wEnv1 : PasswordEnv := { now := 10, findResult := Except.ok c10wUser1 }

def c10wUser2 : User := { email := "b@x.com" }

def c10wEnv2 : PasswordEnv := { now := 10, findResult := Except.ok c10wUser2 }

/-- C10 amended witness: empty submitted tokens against identities whose
stored tokens are empty and whose stored expiries (the zero time) have
elapsed. -/
theorem c10_amended_witness :
    ((passwordResetHandler c10wEnv1 "" { email := "a@x.com" }).response =
        ⟨RStatus.fail, 400, "token is expired, a new one has been sent to your mail"⟩ ∧
     (passwordResetHandler c10wEnv1 "" { email := "a@x.com" }).persisted =
        some { c10wUser1 with passwordResetToken := generate (c10wEnv1.entropy 0) 6,
                              passwordResetTokenExpiresAt := c10wEnv1.now + 3600 } ∧
     (passwordResetHandler c10wEnv1 "" { email := "a@x.com" }).notified =
        some (c10wUser1.email, c10wUser1.emailVerifyToken)) ∧
    ((emailVerifyHandler c10wEnv2 "" { email := "b@x.com" }).response =
        ⟨RStatus.fail, 400, "token is expired, a new one has been sent to your mail"⟩ ∧
     (emailVerifyHandler c10wEnv2 "" { email := "b@x.com" }).persisted =
        some { c10wUser2 with emailVerifyToken := generate (c10wEnv2.entropy 0) 4,
                              emailVerifyTokenExpiresAt := c10wEnv2.now + 7200 } ∧
     (emailVerifyHandler c10wEnv2 "" { email := "b@x.com" }).notified =
        some (c10wUser2.email, generate (c10wEnv2.entropy 0) 4)) :=
  c10_amended c10wEnv1 { email := "a@x.com" } c10wUser1
    rfl rfl rfl rfl (by decide) rfl rfl
    c10wEnv2 { email := "b@x.com" } c10wUser2
    rfl rfl rfl rfl (by decide) rfl rfl

end IAM
